import Mathlib

/-!
# Descriptor tables of the mastodon bee factory

A shallow embedding of `bees/mastodonbee/mastodonbeefactory.go`: the identity
accessors and the option, event and action descriptor tables, followed by the
properties of those tables.

The constructor `New` is left out: it only forwards to `bees.NewBee` and to
`mastodonBee.ReloadOptions`, both declared outside this source file, and what
the built instance reports is decided there.

Go pointers are embedded as `Option`: `none` is the nil pointer and `some v`
a pointer to the value `v`.  Every accessor of the factory has a pointer
receiver and none of them dereferences it.  The Go field `Type` is written
`Type_`, `Type` being a keyword here.
-/

/-- A Go pointer to a value of type `α`; `none` is nil. -/
abbrev Ptr (α : Type) : Type := Option α

namespace bees

/-- Modelled from the spec: the type declaration `bees.BeeOptionDescriptor`
lives in the host package.  The fields are the ones the literals of
`Options()` set (the spec's Field Descriptor: name, description, type,
mandatory). -/
structure BeeOptionDescriptor where
  Name : String
  Description : String
  Type_ : String
  Mandatory : Bool
  deriving DecidableEq, Repr

/-- Modelled from the spec: the type declaration `bees.PlaceholderDescriptor`
lives in the host package.  The fields are the ones the literals of
`Events()` and `Actions()` set; a field a Go literal leaves out holds the
zero value, so `Mandatory` defaults to `false`. -/
structure PlaceholderDescriptor where
  Name : String
  Description : String
  Type_ : String
  Mandatory : Bool := false
  deriving DecidableEq, Repr

/-- Modelled from the spec: the type declaration `bees.EventDescriptor` lives
in the host package (the spec's Event Descriptor: namespace, name,
description, ordered fields). -/
structure EventDescriptor where
  Namespace : String
  Name : String
  Description : String
  Options : List PlaceholderDescriptor
  deriving DecidableEq, Repr

/-- Modelled from the spec: the type declaration `bees.ActionDescriptor` lives
in the host package (the spec's Action Descriptor: namespace, name,
description, fields). -/
structure ActionDescriptor where
  Namespace : String
  Name : String
  Description : String
  Options : List PlaceholderDescriptor
  deriving DecidableEq, Repr

end bees

namespace mastodonbee

/-- The factory `type mastodonBeeFactory struct { bees.BeeFactory }`; the
embedded host type `bees.BeeFactory` is the parameter `B`. -/
structure mastodonBeeFactory (B : Type) where
  BeeFactory : B

/-- ID returns the ID of this Bee. -/
def mastodonBeeFactory.ID {B : Type} (_factory : Ptr (mastodonBeeFactory B)) : String :=
  "mastodonbee"

/-- Name returns the name of this Bee. -/
def mastodonBeeFactory.Name {B : Type} (_factory : Ptr (mastodonBeeFactory B)) : String :=
  "mastodon"

/-- Description returns the description of this Bee. -/
def mastodonBeeFactory.Description {B : Type} (_factory : Ptr (mastodonBeeFactory B)) : String :=
  "Interact with mastodon"

/-- Image returns the filename of an image for this Bee. -/
def mastodonBeeFactory.Image {B : Type} (factory : Ptr (mastodonBeeFactory B)) : String :=
  mastodonBeeFactory.ID factory ++ ".png"

/-- LogoColor returns the preferred logo background color. -/
def mastodonBeeFactory.LogoColor {B : Type} (_factory : Ptr (mastodonBeeFactory B)) : String :=
  "#003b66"

/-- Options returns the options available to configure this Bee. -/
def mastodonBeeFactory.Options {B : Type} (_factory : Ptr (mastodonBeeFactory B)) :
    List bees.BeeOptionDescriptor :=
  [ { Name := "server"
      Description := "URL for the desired mastodon server"
      Type_ := "string"
      Mandatory := true },
    { Name := "client_id"
      Description := "Client id for the mastodon client"
      Type_ := "string"
      Mandatory := true },
    { Name := "client_secret"
      Description := "Client secret for the mastodon client"
      Type_ := "string"
      Mandatory := true },
    { Name := "email"
      Description := "User account email"
      Type_ := "string"
      Mandatory := true },
    { Name := "password"
      Description := "User account password"
      Type_ := "string"
      Mandatory := true } ]

/-- Events describes the available events provided by this Bee. -/
def mastodonBeeFactory.Events {B : Type} (factory : Ptr (mastodonBeeFactory B)) :
    List bees.EventDescriptor :=
  [ { Namespace := mastodonBeeFactory.Name factory
      Name := "deleted"
      Description := "is triggered when a toot has been deleted"
      Options :=
        [ { Name := "id"
            Description := "The ID of the deleted toot"
            Type_ := "string" } ] },
    { Namespace := mastodonBeeFactory.Name factory
      Name := "toot_fetched"
      Description := "is triggered when a toot has been fetched"
      Options :=
        [ { Name := "id"
            Description := "The ID of the toot"
            Type_ := "string" },
          { Name := "text"
            Description := "Text of the toot that has been sent"
            Type_ := "string" },
          { Name := "user_id"
            Description := "Mastodon ID if the toots author"
            Type_ := "string" },
          { Name := "username"
            Description := "Mastodon handle of the toots author"
            Type_ := "string" },
          { Name := "reblogs"
            Description := "reblogs count"
            Type_ := "int64" },
          { Name := "favourites"
            Description := "favourites count"
            Type_ := "int64" },
          { Name := "url"
            Description := "The url for the toot"
            Type_ := "string" } ] },
    { Namespace := mastodonBeeFactory.Name factory
      Name := "follow"
      Description := "is triggered when someone wants to follow you"
      Options :=
        [ { Name := "user_id"
            Description := "Mastodon ID of the user which triggered the follow event"
            Type_ := "string" },
          { Name := "username"
            Description := "Mastodon handle of the user which triggered the follow event"
            Type_ := "string" },
          { Name := "following"
            Description := "Indicates if your're following the user"
            Type_ := "bool" },
          { Name := "followed_by"
            Description := "Indicates if you're followed by the user"
            Type_ := "bool" },
          { Name := "followers"
            Description := "Number of followers for the user which triggered the follow request"
            Type_ := "int64" },
          { Name := "follows"
            Description := "Number of follows for the user which triggered the follow request"
            Type_ := "int64" } ] },
    { Namespace := mastodonBeeFactory.Name factory
      Name := "favourite"
      Description := "is triggered when someone favourites one of your toots."
      Options :=
        [ { Name := "id"
            Description := "The ID of toot"
            Type_ := "string" },
          { Name := "user_id"
            Description := "Mastodon ID of the user that favourited your toot"
            Type_ := "string" },
          { Name := "username"
            Description := "The Mastodon handle of the user that favourited your toot"
            Type_ := "string" },
          { Name := "text"
            Description := "text content of the favourited toot"
            Type_ := "string" },
          { Name := "url"
            Description := "URL of the favourited toot"
            Type_ := "string" },
          { Name := "favourites"
            Description := "The count of favourites for this toot"
            Type_ := "int64" } ] },
    { Namespace := mastodonBeeFactory.Name factory
      Name := "reblog"
      Description := "is triggered when someone reblogs on of your toots"
      Options :=
        [ { Name := "user_id"
            Description := "Mastodon ID of the user tht reblogged your toot"
            Type_ := "string" },
          { Name := "username"
            Description := "Mastodon handle of the user that reblogged your toot"
            Type_ := "string" },
          { Name := "text"
            Description := "text content of the mention"
            Type_ := "string" },
          { Name := "url"
            Description := "URL of the mention"
            Type_ := "string" },
          { Name := "reblogs"
            Description := "Number of reblogs for the post"
            Type_ := "string" } ] },
    { Namespace := mastodonBeeFactory.Name factory
      Name := "mention"
      Description := "is triggered whenever someone mentions you on Mastodon"
      Options :=
        [ { Name := "id"
            Description := "The ID of toot"
            Type_ := "string" },
          { Name := "user_id"
            Description := "Mastodon ID if the mention's author"
            Type_ := "string" },
          { Name := "username"
            Description := "The Mastodon handle of the mention's author"
            Type_ := "string" },
          { Name := "text"
            Description := "text content of the mention"
            Type_ := "string" },
          { Name := "url"
            Description := "URL of the mention"
            Type_ := "string" } ] } ]

/-- Actions describes the available actions provided by this Bee. -/
def mastodonBeeFactory.Actions {B : Type} (factory : Ptr (mastodonBeeFactory B)) :
    List bees.ActionDescriptor :=
  [ { Namespace := mastodonBeeFactory.Name factory
      Name := "toot"
      Description := "Post a new status toot"
      Options :=
        [ { Name := "text"
            Description := "Text of the status to toot, may not be longer than 500 characters"
            Type_ := "string"
            Mandatory := true } ] } ]

/-- The types carried by the placeholders named `field` of the events named
`event` in the descriptor list `events`, in order of appearance. -/
def placeholderTypes (events : List bees.EventDescriptor) (event field : String) : List String :=
  ((events.filter (fun e => e.Name == event)).flatMap
    (fun e => e.Options.filter (fun p => p.Name == field))).map (fun p => p.Type_)

/-- The payload shape of an event: its placeholders as ordered (name, type) pairs. -/
def payloadShape (e : bees.EventDescriptor) : List (String × String) :=
  e.Options.map (fun p => (p.Name, p.Type_))

open mastodonBeeFactory

/-- The nil factory pointer over a trivial host base type. -/
def nilFactory : Ptr (mastodonBeeFactory Unit) := none

/-- A list whose keys are pairwise distinct holds at most one entry per key. -/
theorem lookup_le_one_of_nodup {α : Type} (key : α → String) (l : List α)
    (h : (l.map key).Nodup) (n : String) :
    (l.filter (fun x => key x == n)).length ≤ 1 := by
  induction l with
  | nil => simp
  | cons a t ih =>
    rw [List.map_cons, List.nodup_cons] at h
    by_cases hk : key a = n
    · have hnone : t.filter (fun x => key x == n) = [] := by
        rw [List.filter_eq_nil_iff]
        intro x hx hxn
        exact h.1 (List.mem_map.mpr ⟨x, hx, by simpa [hk] using hxn⟩)
      simp [List.filter_cons, hk, hnone]
    · simpa [List.filter_cons, hk] using ih h.2

/-! ## Options -/

/-- C1: `Options()` returns exactly 5 option descriptors named, in order, server,
client_id, client_secret, email, password, each of type "string" and mandatory. -/
theorem options_schema {B : Type} (factory : Ptr (mastodonBeeFactory B)) :
    (Options factory).length = 5 ∧
    (Options factory).map (fun o => o.Name)
      = ["server", "client_id", "client_secret", "email", "password"] ∧
    ∀ o ∈ Options factory, o.Type_ = "string" ∧ o.Mandatory = true := by
  refine ⟨rfl, rfl, ?_⟩
  intro o ho
  simp only [Options, List.mem_cons, List.mem_singleton, List.not_mem_nil, or_false] at ho
  rcases ho with rfl | rfl | rfl | rfl | rfl <;> exact ⟨rfl, rfl⟩

/-- Witness of C1 at the nil factory and the `server` option. -/
theorem options_schema_witness :
    ({ Name := "server", Description := "URL for the desired mastodon server",
       Type_ := "string", Mandatory := true } : bees.BeeOptionDescriptor).Type_ = "string" ∧
    ({ Name := "server", Description := "URL for the desired mastodon server",
       Type_ := "string", Mandatory := true } : bees.BeeOptionDescriptor).Mandatory = true :=
  (options_schema nilFactory).2.2 _ (by simp [Options])

/-! ## Events and actions -/

/-- C2: `Events()` returns exactly 6 event descriptors named, in order, deleted,
toot_fetched, follow, favourite, reblog, mention. -/
theorem events_names {B : Type} (factory : Ptr (mastodonBeeFactory B)) :
    (Events factory).length = 6 ∧
    (Events factory).map (fun e => e.Name)
      = ["deleted", "toot_fetched", "follow", "favourite", "reblog", "mention"] :=
  ⟨rfl, rfl⟩

/-- C3: `Actions()` returns exactly 1 action descriptor, named toot, whose option
list has exactly 1 placeholder, named text, of type "string" and mandatory. -/
theorem actions_schema {B : Type} (factory : Ptr (mastodonBeeFactory B)) :
    (Actions factory).length = 1 ∧
    (Actions factory).map (fun a => a.Name) = ["toot"] ∧
    (Actions factory).map (fun a => a.Options.length) = [1] ∧
    (Actions factory).map
        (fun a => a.Options.map (fun p => (p.Name, p.Type_, p.Mandatory)))
      = [[("text", "string", true)]] :=
  ⟨rfl, rfl, rfl, rfl⟩

/-- C4: every descriptor of `Events()` and of `Actions()` has its namespace equal
to `Name()`, the display name "mastodon", and different from `ID()`. -/
theorem namespace_is_display_name {B : Type} (factory : Ptr (mastodonBeeFactory B)) :
    Name factory = "mastodon" ∧
    (∀ e ∈ Events factory, e.Namespace = Name factory ∧ e.Namespace ≠ ID factory) ∧
    (∀ a ∈ Actions factory, a.Namespace = Name factory ∧ a.Namespace ≠ ID factory) := by
  have hne : Name factory ≠ ID factory := by
    simp only [Name, ID]; decide
  refine ⟨rfl, ?_, ?_⟩
  · intro e he
    simp only [Events, List.mem_cons, List.mem_singleton, List.not_mem_nil, or_false] at he
    rcases he with rfl | rfl | rfl | rfl | rfl | rfl <;> exact ⟨rfl, hne⟩
  · intro a ha
    simp only [Actions, List.mem_cons, List.mem_singleton, List.not_mem_nil, or_false] at ha
    rcases ha with rfl
    exact ⟨rfl, hne⟩

/-- Witness of C4 at the nil factory and the `toot` action descriptor. -/
theorem namespace_is_display_name_witness :
    ∃ a ∈ Actions nilFactory, a.Name = "toot" ∧
      a.Namespace = Name nilFactory ∧ a.Namespace ≠ ID nilFactory :=
  ⟨(Actions nilFactory).head (by simp [Actions]), by simp [Actions], rfl,
    (namespace_is_display_name nilFactory).2.2 _ (by simp [Actions])⟩

/-! ## Identity -/

/-- C5: the identity accessors return fixed non-empty strings: `ID()` is
"mastodonbee", `Name()` is "mastodon", `Description()` is "Interact with mastodon",
`LogoColor()` is "#003b66", and `Image()` is `ID()` followed by ".png", that is
"mastodonbee.png". -/
theorem identity_accessors {B : Type} (factory : Ptr (mastodonBeeFactory B)) :
    ID factory = "mastodonbee" ∧ Name factory = "mastodon" ∧
    Description factory = "Interact with mastodon" ∧ LogoColor factory = "#003b66" ∧
    Image factory = ID factory ++ ".png" ∧ Image factory = "mastodonbee.png" ∧
    ID factory ≠ "" ∧ Name factory ≠ "" ∧ Description factory ≠ "" ∧
    LogoColor factory ≠ "" ∧ Image factory ≠ "" := by
  refine ⟨rfl, rfl, rfl, rfl, rfl, ?_, ?_, ?_, ?_, ?_, ?_⟩ <;>
    simp only [Image, ID, Name, Description, LogoColor] <;> decide

/-- C8: every accessor is a total function whose result does not depend on the
factory value it is called on, so any two calls return equal values. -/
theorem accessors_independent_of_factory {B : Type} (f g : Ptr (mastodonBeeFactory B)) :
    ID f = ID g ∧ Name f = Name g ∧ Description f = Description g ∧
    Image f = Image g ∧ LogoColor f = LogoColor g ∧
    Options f = Options g ∧ Events f = Events g ∧ Actions f = Actions g :=
  ⟨rfl, rfl, rfl, rfl, rfl, rfl, rfl, rfl⟩

/-! ## Payload shapes -/

/-- C7: in `Events()`, the placeholder reblogs of the reblog event has type
"string", the placeholder favourites of the favourite event and of the
toot_fetched event has type "int64", and the placeholder reblogs of the
toot_fetched event has type "int64"; the name reblogs thus carries two
different types across events. -/
theorem reblogs_type_differs {B : Type} (factory : Ptr (mastodonBeeFactory B)) :
    placeholderTypes (Events factory) "reblog" "reblogs" = ["string"] ∧
    placeholderTypes (Events factory) "favourite" "favourites" = ["int64"] ∧
    placeholderTypes (Events factory) "toot_fetched" "favourites" = ["int64"] ∧
    placeholderTypes (Events factory) "toot_fetched" "reblogs" = ["int64"] ∧
    placeholderTypes (Events factory) "reblog" "reblogs"
      ≠ placeholderTypes (Events factory) "toot_fetched" "reblogs" := by
  have h1 : placeholderTypes (Events factory) "reblog" "reblogs" = ["string"] := by
    simp only [Events, Name]; decide
  have h2 : placeholderTypes (Events factory) "toot_fetched" "reblogs" = ["int64"] := by
    simp only [Events, Name]; decide
  refine ⟨h1, ?_, ?_, h2, ?_⟩
  · simp only [Events, Name]; decide
  · simp only [Events, Name]; decide
  · rw [h1, h2]; decide

/-- C9: the payload shape of each event of `Events()` is exactly the listed
ordered (name, type) list, and no event placeholder is marked mandatory. -/
theorem events_payload_shapes {B : Type} (factory : Ptr (mastodonBeeFactory B)) :
    (Events factory).map (fun e => (e.Name, payloadShape e)) =
      [ ("deleted", [("id", "string")]),
        ("toot_fetched",
          [("id", "string"), ("text", "string"), ("user_id", "string"),
           ("username", "string"), ("reblogs", "int64"), ("favourites", "int64"),
           ("url", "string")]),
        ("follow",
          [("user_id", "string"), ("username", "string"), ("following", "bool"),
           ("followed_by", "bool"), ("followers", "int64"), ("follows", "int64")]),
        ("favourite",
          [("id", "string"), ("user_id", "string"), ("username", "string"),
           ("text", "string"), ("url", "string"), ("favourites", "int64")]),
        ("reblog",
          [("user_id", "string"), ("username", "string"), ("text", "string"),
           ("url", "string"), ("reblogs", "string")]),
        ("mention",
          [("id", "string"), ("user_id", "string"), ("username", "string"),
           ("text", "string"), ("url", "string")]) ] ∧
    ∀ e ∈ Events factory, ∀ p ∈ e.Options, p.Mandatory = false := by
  refine ⟨rfl, ?_⟩
  have hall : (Events factory).all (fun e => e.Options.all (fun p => !p.Mandatory)) = true := rfl
  intro e he p hp
  have hp2 := List.all_eq_true.mp (List.all_eq_true.mp hall e he) p hp
  simpa using hp2

/-- Witness of C9 at the nil factory, the `deleted` event and its `id` placeholder. -/
theorem events_payload_shapes_witness :
    ∃ e ∈ Events nilFactory, ∃ p ∈ e.Options,
      e.Name = "deleted" ∧ p.Name = "id" ∧ p.Mandatory = false :=
  ⟨(Events nilFactory).head (by simp [Events]), by simp [Events],
    { Name := "id", Description := "The ID of the deleted toot", Type_ := "string" },
    by simp [Events], rfl, rfl,
    (events_payload_shapes nilFactory).2
      ((Events nilFactory).head (by simp [Events])) (List.head_mem _)
      { Name := "id", Description := "The ID of the deleted toot", Type_ := "string" }
      (by simp [Events])⟩

/-! ## Name uniqueness -/

/-- C10: names never collide inside a schema: the option names of `Options()` are
pairwise distinct, the event names of `Events()` are pairwise distinct, within
every event descriptor and action descriptor the placeholder names are pairwise
distinct, and a lookup by name in any of these lists has at most one match. -/
theorem names_never_collide {B : Type} (factory : Ptr (mastodonBeeFactory B)) :
    ((Options factory).map (fun o => o.Name)).Nodup ∧
    ((Events factory).map (fun e => e.Name)).Nodup ∧
    (∀ e ∈ Events factory, (e.Options.map (fun p => p.Name)).Nodup) ∧
    (∀ a ∈ Actions factory, (a.Options.map (fun p => p.Name)).Nodup) ∧
    (∀ n, ((Options factory).filter (fun o => o.Name == n)).length ≤ 1) ∧
    (∀ n, ((Events factory).filter (fun e => e.Name == n)).length ≤ 1) ∧
    (∀ e ∈ Events factory, ∀ n, (e.Options.filter (fun p => p.Name == n)).length ≤ 1) ∧
    (∀ a ∈ Actions factory, ∀ n, (a.Options.filter (fun p => p.Name == n)).length ≤ 1) := by
  have hO : ((Options factory).map (fun o => o.Name)).Nodup := by
    simp only [Options, List.map]; decide
  have hE : ((Events factory).map (fun e => e.Name)).Nodup := by
    simp only [Events, List.map]; decide
  have hEall : (Events factory).all
      (fun e => decide (e.Options.map (fun p => p.Name)).Nodup) = true := by
    simp only [Events, Name]; decide
  have hAall : (Actions factory).all
      (fun a => decide (a.Options.map (fun p => p.Name)).Nodup) = true := by
    simp only [Actions, Name]; decide
  have hEP : ∀ e ∈ Events factory, (e.Options.map (fun p => p.Name)).Nodup :=
    fun e he => of_decide_eq_true (List.all_eq_true.mp hEall e he)
  have hAP : ∀ a ∈ Actions factory, (a.Options.map (fun p => p.Name)).Nodup :=
    fun a ha => of_decide_eq_true (List.all_eq_true.mp hAall a ha)
  exact ⟨hO, hE, hEP, hAP,
    fun n => lookup_le_one_of_nodup _ _ hO n,
    fun n => lookup_le_one_of_nodup _ _ hE n,
    fun e he n => lookup_le_one_of_nodup _ _ (hEP e he) n,
    fun a ha n => lookup_le_one_of_nodup _ _ (hAP a ha) n⟩

/-- Witness of C10 at the nil factory and the `toot` action descriptor. -/
theorem names_never_collide_witness :
    ∃ a ∈ Actions nilFactory, a.Name = "toot" ∧
      (a.Options.map (fun p => p.Name)).Nodup :=
  ⟨(Actions nilFactory).head (by simp [Actions]), by simp [Actions], rfl,
    (names_never_collide nilFactory).2.2.2.1 _ (by simp [Actions])⟩

end mastodonbee
